import Mathlib

/-!
Verification of the iterative function-calling orchestrator of the
Supabase-RAG application against its natural-language specification.

The development is a shallow embedding of the Python sources:
  src/tools/mcp_tools.py       (tool bodies and `execute_function_call`)
  src/tools/tool_definitions.py (the `AVAILABLE_TOOLS` schema list)
  src/config/settings.py       (`METRIC_PATTERNS`, defaults, system prompt)
  src/core/chat_handler.py     (`ChatHandler.stream_answer_with_tools`)
  src/supabase_db.py           (chat/message persistence operations)

External collaborators (the OpenAI client, the Supabase client, the vector
retriever, the network-bound tool bodies, and CPython's hash-dependent set
iteration order) are modelled as explicit oracle parameters; everything a
claim depends on is transcribed from the source.
-/

namespace RAG

/-! ## Python-style values

Tool arguments arrive as `json.loads` output and tool results are plain
Python dicts, so we embed the value universe as a small JSON-like inductive.
`retrieverHandle` stands for the opaque vector-store retriever object that
`ChatHandler` injects into `search_documents` calls (it is never produced by
`json.loads`, only by the handler's `kwargs["retriever"] = self.retriever`).
-/

inductive PyVal where
  | str (s : String)
  | int (n : Int)
  | num (q : Rat)
  | bool (b : Bool)
  | none
  | list (xs : List PyVal)
  | dict (xs : List (String × PyVal))
  | retrieverHandle

mutual

/-- Structural equality on `PyVal` (Python `==` restricted to same-type
comparisons, which is all the embedded code performs). -/
def pyBeq : PyVal → PyVal → Bool
  | .str a, .str b => a == b
  | .int a, .int b => a == b
  | .num a, .num b => a == b
  | .bool a, .bool b => a == b
  | .none, .none => true
  | .list xs, .list ys => pyBeqList xs ys
  | .dict xs, .dict ys => pyBeqPairs xs ys
  | .retrieverHandle, .retrieverHandle => true
  | _, _ => false

def pyBeqList : List PyVal → List PyVal → Bool
  | [], [] => true
  | x :: xs, y :: ys => pyBeq x y && pyBeqList xs ys
  | _, _ => false

def pyBeqPairs : List (String × PyVal) → List (String × PyVal) → Bool
  | [], [] => true
  | (k, x) :: xs, (l, y) :: ys => k == l && pyBeq x y && pyBeqPairs xs ys
  | _, _ => false

end

instance : BEq PyVal := ⟨pyBeq⟩

/-- A Python dict with string keys, as produced by `json.loads`: an
insertion-ordered association list whose keys are unique. -/
abbrev PyDict := List (String × PyVal)

/-- `d.get(k)` / `k in d` lookup on a dict. -/
def dictGet (d : PyDict) (k : String) : Option PyVal :=
  (d.find? (fun p => p.1 == k)).map (fun p => p.2)

/-- Membership test `k in d`. -/
def dictHasKey (d : PyDict) (k : String) : Bool :=
  d.any (fun p => p.1 == k)

/-- `d[k] = v`: replace in place when `k` is present (keeping its position,
as CPython dicts do), otherwise append at the end. -/
def dictSet (d : PyDict) (k : String) (v : PyVal) : PyDict :=
  if dictHasKey d k then d.map (fun p => if p.1 == k then (k, v) else p)
  else d ++ [(k, v)]

/-- `d.update(kws)`: fold `dictSet` over the entries of `kws` in order.
This is the in-place mutation performed by `arguments.update(kwargs)` at
mcp_tools.py:718; in the embedding the mutated dict is returned explicitly
and the caller keeps using the returned value wherever Python keeps using
the aliased object. -/
def dictUpdate (d : PyDict) (kws : PyDict) : PyDict :=
  kws.foldl (fun acc p => dictSet acc p.1 p.2) d

/-- Python truthiness `bool(v)` for the values of our universe. -/
def pyTruthy : PyVal → Bool
  | .str s => !s.isEmpty
  | .int n => n != 0
  | .num q => q != 0
  | .bool b => b
  | .none => false
  | .list xs => !xs.isEmpty
  | .dict xs => !xs.isEmpty
  | .retrieverHandle => true

/-- A rough `str(v)` used only to build progress-event text (f-strings in
chat_handler.py); no claim depends on its exact rendering. -/
def pyStr : PyVal → String
  | .str s => s
  | .int n => toString n
  | .num q => toString q
  | .bool b => if b then "True" else "False"
  | .none => "None"
  | .list _ => "[...]"
  | .dict _ => "[...]"
  | .retrieverHandle => "<retriever>"

/-! ## settings.py constants -/

/-- settings.py:35 `DEFAULT_SEARCH_RESULTS = 5`. -/
def DEFAULT_SEARCH_RESULTS : Int := 5

/-- settings.py:60 `SYSTEM_PROMPT` (the exact prompt text is irrelevant to
every claim; we keep it as an abstract marker string standing for the
constant). -/
def SYSTEM_PROMPT : String := "SYSTEM_PROMPT"

/-! ## Regex machinery for METRIC_PATTERNS (settings.py:48-55)

Each of the six patterns has the shape
  `keyword` `s?`(only for "parameters") `[:\s]*` `([0-9]+\.?[0-9]*)` `[%]?`/`[MBK]?`
with exactly one capture group.  `re.findall(pattern, text)[0]` is the
group of the leftmost match.  Because the character classes `[:\s]`,
`[0-9]` and the literal keyword are pairwise disjoint at every decision
point, Python's backtracking is equivalent to maximal munch:
  - `[:\s]*` is greedy; giving characters back never helps since a
    `[:\s]` character can never satisfy the following `[0-9]`;
  - the optional `s` (in `parameters?`) can never satisfy `[:\s]` or
    `[0-9]`, so consuming it when present is equivalent;
  - after the group, the pattern is an optional class and then the end,
    which always succeeds, so the greedy group is maximal.
The trailing optional class (`[%]?` or `[MBK]?`) is outside the group and
never affects the captured text.
-/

/-- One METRIC_PATTERNS entry: the literal keyword, and whether the regex
has an optional `s` right after it (`parameters?`). -/
structure MetricPattern where
  keyword : String
  optS : Bool
deriving DecidableEq, Repr

/-- Python `\s` (ASCII range) together with `:`  — the class `[:\s]`. -/
def isColonSpace (c : Char) : Bool :=
  c == ':' || c == ' ' || c == '\t' || c == '\n' || c == '\r' ||
  c == '\x0b' || c == '\x0c'

/-- Strip a literal string prefix from a char list, or fail. -/
def stripLit : List Char → List Char → Option (List Char)
  | [], cs => some cs
  | _ :: _, [] => Option.none
  | k :: ks, c :: cs => if k == c then stripLit ks cs else Option.none

/-- Match one METRIC_PATTERNS regex anchored at the head of `cs`,
returning the text of the capture group `([0-9]+\.?[0-9]*)`. -/
def matchAt (p : MetricPattern) (cs : List Char) : Option String := do
  let cs1 ← stripLit p.keyword.data cs
  let cs2 := if p.optS then
      match cs1 with
      | 's' :: rest => rest
      | _ => cs1
    else cs1
  let cs3 := cs2.dropWhile isColonSpace
  let ds := cs3.takeWhile Char.isDigit
  if ds.isEmpty then Option.none
  else
    let rest := cs3.dropWhile Char.isDigit
    match rest with
    | '.' :: rest2 =>
      some (String.mk (ds ++ '.' :: rest2.takeWhile Char.isDigit))
    | _ => some (String.mk ds)

/-- Leftmost match of the pattern in `cs`: `re.findall(pattern, text)[0]`
(as an `Option`, `none` when `findall` returns the empty list). -/
def findFirst (p : MetricPattern) : List Char → Option String
  | [] => matchAt p []
  | c :: cs =>
    match matchAt p (c :: cs) with
    | some g => some g
    | Option.none => findFirst p cs

/-- settings.py:48-55 `METRIC_PATTERNS`, in source order.  The
`training_time` and `inference_time` regexes key on the literal words
`training` and `inference`. -/
def METRIC_PATTERNS : List (String × MetricPattern) :=
  [("accuracy", ⟨"accuracy", false⟩),
   ("speed", ⟨"speed", false⟩),
   ("memory", ⟨"memory", false⟩),
   ("parameters", ⟨"parameter", true⟩),
   ("training_time", ⟨"training", false⟩),
   ("inference_time", ⟨"inference", false⟩)]

/-- Value of a digit character. -/
def digitVal (c : Char) : Nat := c.toNat - '0'.toNat

/-- Natural number denoted by a list of digit characters. -/
def digitsToNat (ds : List Char) : Nat :=
  ds.foldl (fun acc c => acc * 10 + digitVal c) 0

/-- Python `float(s)` restricted to the strings the capture group
`[0-9]+\.?[0-9]*` can produce (`"95"`, `"95.5"`, `"5."`), as an exact
rational; returns `none` on anything else, mirroring the
`except ValueError: pass` at mcp_tools.py:135-136. -/
def pyFloat (s : String) : Option Rat :=
  match s.data.span Char.isDigit with
  | (ds, []) => if ds.isEmpty then Option.none else some (digitsToNat ds)
  | (ds, '.' :: frac) =>
    if ds.isEmpty then Option.none
    else if frac.all Char.isDigit then
      some ((digitsToNat ds : Rat) + (digitsToNat frac : Rat) / ((10 : Rat) ^ frac.length))
    else Option.none
  | _ => Option.none

/-- The metric-extraction loop of mcp_tools.py:127-136: iterate the six
patterns in order; when `re.findall` is non-empty and `float(matches[0])`
parses, bind the metric name to that value. -/
def extractMetrics : List (String × MetricPattern) → String → List (String × Rat)
  | [], _ => []
  | (m, p) :: rest, tl =>
    match (findFirst p tl.data).bind pyFloat with
    | some v => (m, v) :: extractMetrics rest tl
    | Option.none => extractMetrics rest tl

/-- mcp_tools.py:114-150 `extract_performance_metrics(text, technology)`
on string inputs (the declared schema): lowercase the text, extract the
metrics, and return the result dict.  The outer `try` cannot fail on
string inputs, so the `"error"` branch of the Python function is
unreachable here and the returned dict has no `"error"` key.
`String.toLower` embeds `str.lower()` (they agree on ASCII, which is all
the patterns can match). -/
def extract_performance_metrics (text technology : String) : PyVal :=
  let metrics := extractMetrics METRIC_PATTERNS text.toLower
  .dict [("name", .str technology),
         ("metrics", .dict (metrics.map (fun p => (p.1, PyVal.num p.2)))),
         ("source_text_length", .int text.length),
         ("metrics_found", .int metrics.length)]

/-! ## Tool layer (mcp_tools.py)

A document returned by the vector-store retriever.  The retriever itself is
an external collaborator (`retrieve(query, k)` in the spec); its behaviour
is an oracle field of `Env`.  Chunk metadata values are strings (file
paths and page labels), which is what the chat handler's provenance code
relies on when it sorts document sources. -/
structure Doc where
  page_content : String
  metadata : List (String × String)

/-- The external world the tool layer runs against: the retriever, the
network-bound tool bodies (web search, matplotlib charting, yfinance), and
CPython's hash-dependent set iteration order (`list(s)` for a `set` `s`
enumerates elements in an unspecified order; `setListStr`/`setListVal`
stand for that enumeration). -/
structure Env where
  retrieve : PyVal → List Doc
  setListStr : List String → List String
  setListVal : List PyVal → List PyVal
  webBody : PyDict → Except String PyVal
  cmpBody : PyDict → Except String PyVal
  chartBody : PyDict → Except String PyVal
  reportBody : PyDict → Except String PyVal
  finBody : PyDict → Except String PyVal
  finCmpBody : PyDict → Except String PyVal

/-- One formal parameter of a Python function: its name and default value
(`none` = required positional-or-keyword parameter). -/
structure Param where
  name : String
  default : Option PyVal

/-- Python keyword-argument binding for `f(**args)`: an argument key that
is not a parameter raises `TypeError: ... got an unexpected keyword
argument ...`; a parameter with neither an argument nor a default raises
`TypeError: ... missing ... required positional argument ...`; otherwise
every parameter is bound to its argument or its default.  (No type
checking of any kind happens here — Python call binding is name-based
only.) -/
def bindArgs (fname : String) (params : List Param) (args : PyDict) :
    Except String PyDict :=
  match args.find? (fun p => !(params.any (fun q => q.name == p.1))) with
  | some kv => .error (fname ++ "() got an unexpected keyword argument " ++ kv.1)
  | Option.none =>
    params.foldr (fun q acc => do
      let bound ← acc
      match dictGet args q.name with
      | some v => .ok ((q.name, v) :: bound)
      | Option.none =>
        match q.default with
        | some d => .ok ((q.name, d) :: bound)
        | Option.none =>
          .error (fname ++ "() missing 1 required positional argument: " ++ q.name))
      (.ok [])

/-- mcp_tools.py:19-63 `search_documents(query, num_results=5, retriever=None)`.
The falsy-retriever check at lines 31-32 raises `ValueError` BEFORE the
`try` block, so that exception propagates out of the tool body; every
failure inside the `try` (lines 34-63) is caught and returned as a normal
result dict carrying an `"error"` key.  A truthy `retriever` argument that
is not the injected retriever object makes `retriever.get_relevant_documents`
raise (`AttributeError`), landing in that except branch; so does a
non-integer `num_results` (slicing `TypeError`).  `list(sources)` on the
Python set of sources is embedded via the `setListStr` enumeration
oracle applied to the first-seen list of distinct truthy sources. -/
def search_documents_body (env : Env) (bound : PyDict) : Except String PyVal :=
  let retriever := (dictGet bound "retriever").getD .none
  let query := (dictGet bound "query").getD .none
  if !(pyTruthy retriever) then .error "Retriever instance is required"
  else
    match retriever, (dictGet bound "num_results").getD .none with
    | .retrieverHandle, .int n =>
      let docs := (env.retrieve query).take n.toNat
      let results := docs.map (fun d => PyVal.dict
        [("content", .str d.page_content),
         ("metadata", .dict (d.metadata.map (fun p => (p.1, PyVal.str p.2)))),
         ("source", .str (((d.metadata.find? (fun p => p.1 == "source")).map
            Prod.snd).getD "Unknown"))])
      let sources := docs.foldl (fun acc d =>
        match d.metadata.find? (fun p => p.1 == "source") with
        | some p => if !p.2.isEmpty && !(acc.contains p.2) then acc ++ [p.2] else acc
        | Option.none => acc) []
      .ok (.dict [("results", .list results),
                  ("sources", .list ((env.setListStr sources).map PyVal.str)),
                  ("total_found", .int results.length),
                  ("query", query)])
    | _, _ =>
      .ok (.dict [("error", .str "Document search failed"),
                  ("results", .list []),
                  ("sources", .list []),
                  ("total_found", .int 0),
                  ("query", query)])

/-- The result dict built by `extract_performance_metrics` for a string
`text` and an arbitrary `technology` value (the function never inspects
`technology`, it only stores it under `"name"`). -/
def extract_result (text : String) (technology : PyVal) : PyVal :=
  let metrics := extractMetrics METRIC_PATTERNS text.toLower
  .dict [("name", technology),
         ("metrics", .dict (metrics.map (fun p => (p.1, PyVal.num p.2)))),
         ("source_text_length", .int (text.length : Int)),
         ("metrics_found", .int (metrics.length : Int))]

/-- mcp_tools.py:114-150 `extract_performance_metrics` as a registry tool
body.  A non-string `text` makes `text.lower()` raise `AttributeError`,
which the tool's own `try` catches, returning the error dict of lines
146-150; for string inputs the `try` cannot fail and the success dict is
returned. -/
def extract_performance_metrics_body (bound : PyDict) : Except String PyVal :=
  let technology := (dictGet bound "technology").getD .none
  match (dictGet bound "text").getD .none with
  | .str t => .ok (extract_result t technology)
  | _ => .ok (.dict [("name", technology),
                     ("metrics", .dict []),
                     ("error", .str "Metric extraction failed: object has no attribute lower")])

/-- Parameter lists of the eight registered tools, transcribed from the
`def` signatures in mcp_tools.py. -/
def searchDocumentsParams : List Param :=
  [⟨"query", Option.none⟩, ⟨"num_results", some (.int DEFAULT_SEARCH_RESULTS)⟩,
   ⟨"retriever", some .none⟩]

def searchWebParams : List Param :=
  [⟨"query", Option.none⟩, ⟨"num_results", some (.int DEFAULT_SEARCH_RESULTS)⟩]

def extractMetricsParams : List Param :=
  [⟨"text", Option.none⟩, ⟨"technology", Option.none⟩]

def comparisonParams : List Param :=
  [⟨"data1", Option.none⟩, ⟨"data2", Option.none⟩,
   ⟨"title", some (.str "Performance Comparison")⟩]

def chartParams : List Param :=
  [⟨"metrics_data", Option.none⟩, ⟨"title", some (.str "Performance Chart")⟩]

def reportParams : List Param :=
  [⟨"document_results", Option.none⟩, ⟨"web_results", Option.none⟩,
   ⟨"comparison_data", some .none⟩]

def financialDataParams : List Param :=
  [⟨"symbol", Option.none⟩, ⟨"period", some (.str "1y")⟩,
   ⟨"data_type", some (.str "stock")⟩]

def financialCompareParams : List Param :=
  [⟨"symbols", Option.none⟩, ⟨"period", some (.str "1y")⟩,
   ⟨"data_types", some .none⟩]

/-- mcp_tools.py:698-707 `TOOL_FUNCTIONS`: the name → function registry.
`search_documents` and `extract_performance_metrics` have concrete
embedded bodies; the other six perform network or matplotlib work and are
oracle fields of `Env`. -/
def TOOL_FUNCTIONS (env : Env) (name : String) :
    Option (List Param × (PyDict → Except String PyVal)) :=
  if name == "search_documents" then
    some (searchDocumentsParams, search_documents_body env)
  else if name == "search_web" then some (searchWebParams, env.webBody)
  else if name == "extract_performance_metrics" then
    some (extractMetricsParams, extract_performance_metrics_body)
  else if name == "create_performance_comparison" then
    some (comparisonParams, env.cmpBody)
  else if name == "create_performance_chart" then
    some (chartParams, env.chartBody)
  else if name == "synthesize_research_report" then
    some (reportParams, env.reportBody)
  else if name == "get_financial_data" then
    some (financialDataParams, env.finBody)
  else if name == "compare_financial_assets" then
    some (financialCompareParams, env.finCmpBody)
  else Option.none

/-- The result dict of `execute_function_call`.  It has exactly three
possible shapes in the source:
  `{"error": ...}`                       (unknown name — NO success key),
  `{"success": True, "data": result}`    (call returned normally),
  `{"success": False, "error": ...}`     (binding failed or body raised).
An absent key is `Option.none`. -/
structure Envelope where
  success : Option Bool
  data : Option PyVal
  error : Option String

/-- mcp_tools.py:710-722 `execute_function_call(function_name, arguments,
**kwargs)`.  The second component of the result is the caller's
`arguments` dict AFTER the call: `arguments.update(kwargs)` at line 718
mutates it in place for every known tool name (the embedding returns the
mutated dict; the Python caller sees the same change through aliasing).
The function is total: argument-binding errors and exceptions raised by
the tool body are all converted to envelopes. -/
def execute_function_call (env : Env) (function_name : String)
    (arguments kwargs : PyDict) : Envelope × PyDict :=
  match TOOL_FUNCTIONS env function_name with
  | Option.none =>
    ({ success := Option.none, data := Option.none,
       error := some ("Function " ++ function_name ++ " not found") }, arguments)
  | some tf =>
    let args2 := dictUpdate arguments kwargs
    match bindArgs function_name tf.1 args2 >>= tf.2 with
    | .ok result =>
      ({ success := some true, data := some result, error := Option.none }, args2)
    | .error e =>
      ({ success := some false, data := Option.none,
         error := some ("Function execution failed: " ++ e) }, args2)

/-! ## Message and schema types (chat_handler.py, tool_definitions.py) -/

/-- A tool call requested by the model.  `arguments` is the
`json.loads(tool_call.function.arguments)` result (the embedding assumes
the model emits well-formed JSON; no claim concerns malformed JSON). -/
structure ToolCallReq where
  id : String
  name : String
  arguments : PyDict

/-- One OpenAI chat message as built by `stream_answer_with_tools`. -/
structure Msg where
  role : String
  content : Option String
  tool_calls : List ToolCallReq
  tool_call_id : Option String

/-- One entry of `AVAILABLE_TOOLS` (tool_definitions.py): the JSON-Schema
function declaration sent to the model.  Property entries are
(name, type, default). -/
structure ToolSpec where
  name : String
  description : String
  properties : List (String × String × Option PyVal)
  required : List String

/-- tool_definitions.py:5-206 `AVAILABLE_TOOLS`, all eight entries with
their property names, types, defaults and required lists (descriptions
abbreviated; no claim depends on their text). -/
def AVAILABLE_TOOLS : List ToolSpec :=
  [⟨"search_documents", "Search the PDF document database",
    [("query", "string", Option.none), ("num_results", "integer", some (.int 5))],
    ["query"]⟩,
   ⟨"search_web", "Search the web for current information",
    [("query", "string", Option.none), ("num_results", "integer", some (.int 5))],
    ["query"]⟩,
   ⟨"extract_performance_metrics", "Extract numerical performance metrics from text",
    [("text", "string", Option.none), ("technology", "string", Option.none)],
    ["text", "technology"]⟩,
   ⟨"create_performance_comparison", "Create a visual performance comparison chart",
    [("data1", "object", Option.none), ("data2", "object", Option.none),
     ("title", "string", some (.str "Performance Comparison"))],
    ["data1", "data2"]⟩,
   ⟨"create_performance_chart", "Create visual charts for performance comparisons",
    [("metrics_data", "array", Option.none),
     ("title", "string", some (.str "Performance Chart"))],
    ["metrics_data"]⟩,
   ⟨"synthesize_research_report", "Create a comprehensive report from search results",
    [("document_results", "object", Option.none), ("web_results", "object", Option.none),
     ("comparison_data", "object", Option.none)],
    ["document_results", "web_results"]⟩,
   ⟨"get_financial_data", "Fetch real-time financial data for stocks or crypto",
    [("symbol", "string", Option.none), ("period", "string", some (.str "1y")),
     ("data_type", "string", some (.str "stock"))],
    ["symbol"]⟩,
   ⟨"compare_financial_assets", "Compare multiple stocks or cryptocurrencies",
    [("symbols", "array", Option.none), ("period", "string", some (.str "1y")),
     ("data_types", "array", Option.none)],
    ["symbols"]⟩]

/-- A structured (non-streaming) model response. -/
structure ModelResponse where
  content : Option String
  tool_calls : List ToolCallReq

/-- The external services `stream_answer_with_tools` consumes:
`create` is `client.chat.completions.create(model, messages, tools,
tool_choice)` (the `.error` case is a raised transport/auth exception);
`createStream` is the final `stream=True` call returning the token
sequence; `newChatId` is the id Supabase assigns in `create_chat`;
`persistBotFail`/`persistTitleFail` are raised exceptions of the two
persistence calls inside the handler `try` (chat_handler.py:161 and 165),
`Option.none` meaning they succeed. -/
structure Oracles where
  create : List Msg → List ToolSpec → String → Except String ModelResponse
  createStream : List Msg → Except String (List String)
  newChatId : String
  persistBotFail : Option String
  persistTitleFail : Option String

/-! ## Persistence layer (supabase_db.py) -/

/-- The durable store: `chats(id, title)` and
`chat_messages(chat_id, role, content)` rows in insertion order. -/
structure Db where
  chats : List (String × String)
  messages : List (String × String × String)

/-- supabase_db.py:16-18 `create_chat(title)`. -/
def create_chat (db : Db) (id title : String) : Db :=
  { db with chats := db.chats ++ [(id, title)] }

/-- supabase_db.py:21-26 `add_message(chat_id, role, content)`. -/
def add_message (db : Db) (chat_id role content : String) : Db :=
  { db with messages := db.messages ++ [(chat_id, role, content)] }

/-- supabase_db.py:39-40 `update_chat_title(chat_id, new_title)`. -/
def update_chat_title (db : Db) (chat_id new_title : String) : Db :=
  { db with chats := db.chats.map (fun c => if c.1 == chat_id then (c.1, new_title) else c) }

/-! ## Serialization of tool results (`json.dumps(result)`) -/

mutual

def pyJson : PyVal → String
  | .str s => "\"" ++ s ++ "\""
  | .int n => toString n
  | .num q => toString q
  | .bool b => if b then "true" else "false"
  | .none => "null"
  | .list xs => "[" ++ pyJsonList xs ++ "]"
  | .dict xs => "\x7b" ++ pyJsonPairs xs ++ "\x7d"
  | .retrieverHandle => "\"<retriever>\""

def pyJsonList : List PyVal → String
  | [] => ""
  | [x] => pyJson x
  | x :: xs => pyJson x ++ ", " ++ pyJsonList xs

def pyJsonPairs : List (String × PyVal) → String
  | [] => ""
  | [(k, v)] => "\"" ++ k ++ "\": " ++ pyJson v
  | (k, v) :: xs => "\"" ++ k ++ "\": " ++ pyJson v ++ ", " ++ pyJsonPairs xs

end

/-- `json.dumps` of an `execute_function_call` result dict. -/
def envelopeJson (e : Envelope) : String :=
  pyJson (.dict
    ((match e.success with | some b => [("success", PyVal.bool b)] | Option.none => []) ++
     (match e.data with | some d => [("data", d)] | Option.none => []) ++
     (match e.error with | some s => [("error", PyVal.str s)] | Option.none => [])))

/-! ## Provenance rendering (chat_handler.py:168-235) -/

/-- `data.get(k)` where `data` ought to be a dict; registered tools always
return dicts on the branches where the handler calls `.get`, so the
non-dict case (which would raise `AttributeError` in Python) is modelled
as an absent key. -/
def pyGet (v : PyVal) (k : String) : Option PyVal :=
  match v with
  | .dict d => dictGet d k
  | _ => Option.none

/-- chat_handler.py:170-177 `tool_name_map` with fallback to the raw name. -/
def toolDisplayName (f : String) : String :=
  if f == "search_documents" then "📚 Document Search"
  else if f == "search_web" then "🌐 Web Search"
  else if f == "extract_performance_metrics" then "📊 Performance Analysis"
  else if f == "create_performance_comparison" then "⚖️ Performance Comparison"
  else if f == "create_performance_chart" then "📈 Chart Generation"
  else if f == "synthesize_research_report" then "📋 Report Synthesis"
  else f

/-- A record of one executed tool call (`function_calls_made` entries).
`arguments` is the dict object the handler stored — the same object
`execute_function_call` mutated, so it carries any injected kwargs. -/
structure FCall where
  function : String
  arguments : PyDict
  result : Envelope

/-- chat_handler.py:179-187: distinct display names in first-seen order
(`friendly_names` list guarded by the `seen_functions` set). -/
def friendlyNames (calls : List FCall) : List String :=
  (calls.foldl (fun (acc : List String × List String) fc =>
    if acc.2.contains fc.function then acc
    else (acc.1 ++ [toolDisplayName fc.function], acc.2 ++ [fc.function])) ([], [])).1

/-- Insert into the first-seen representation of a Python string set. -/
def addStrSet (acc : List String) (s : String) : List String :=
  if acc.contains s then acc else acc ++ [s]

/-- `doc_sources.update(...)` element step: only string sources occur
(the embedded `search_documents` emits `.str` values). -/
def strAdd (a : List String) (v : PyVal) : List String :=
  match v with | .str s => addStrSet a s | _ => a

/-- The contribution of one recorded call to `doc_sources`
(chat_handler.py:196-201). -/
def docSourceStep (acc : List String) (fc : FCall) : List String :=
  if fc.result.success == some true && fc.function == "search_documents" then
    match (pyGet (fc.result.data.getD (.dict [])) "sources").getD .none with
    | .list ss => if ss.isEmpty then acc else ss.foldl strAdd acc
    | _ => acc
  else acc

/-- chat_handler.py:192-201: the `doc_sources` set, represented by the
first-seen list of its elements (the handler only ever sorts it, and
sorting is independent of set iteration order). -/
def docSourcesOf (calls : List FCall) : List String :=
  calls.foldl docSourceStep []

/-- `web_sources.add(result["url"])` for the first 3 results of one
`search_web` payload (chat_handler.py:205-207). -/
def urlAdd (a : List PyVal) (r : PyVal) : List PyVal :=
  match pyGet r "url" with
  | some u => if pyTruthy u && !(a.contains u) then a ++ [u] else a
  | Option.none => a

/-- The contribution of one recorded call to `web_sources`
(chat_handler.py:204-207). -/
def webSourceStep (acc : List PyVal) (fc : FCall) : List PyVal :=
  if fc.result.success == some true && fc.function == "search_web" then
    match (pyGet (fc.result.data.getD (.dict [])) "results").getD .none with
    | .list rs => if rs.isEmpty then acc else (rs.take 3).foldl urlAdd acc
    | _ => acc
  else acc

/-- chat_handler.py:204-207: the `web_sources` set, represented by the
first-seen list of its elements; at most the first 3 results of each
successful `search_web` call contribute their truthy `url` values. -/
def webSourcesOf (calls : List FCall) : List PyVal :=
  calls.foldl webSourceStep []

/-- chat_handler.py:210-213: the lines of the "Sources" block —
`sorted(doc_sources)`, one yield per source.  `sorted` of a Python set
sorts its elements and does not depend on iteration order. -/
def docSourceLines (calls : List FCall) : List String :=
  (List.insertionSort (fun a b : String => a ≤ b) (docSourcesOf calls)).map
    (fun s => "\nSource: " ++ s)

/-- chat_handler.py:215-218: the lines of the "Web Sources" block —
`list(web_sources)[:3]`, one yield per source.  `list` of a Python set
enumerates in the unspecified hash-dependent order `env.setListVal`. -/
def webSourceLines (env : Env) (calls : List FCall) : List String :=
  ((env.setListVal (webSourcesOf calls)).take 3).map (fun v => "\nSource: " ++ pyStr v)

/-- chat_handler.py:221-235: embedded chart images, in call order. -/
def chartEvents (calls : List FCall) : List String :=
  calls.foldl (fun acc fc =>
    if fc.result.success == some true then
      let data := fc.result.data.getD (.dict [])
      if fc.function == "create_performance_comparison" &&
          pyTruthy ((pyGet data "has_chart").getD .none) then
        let b := (pyGet ((pyGet data "chart_data").getD (.dict [])) "chart_base64").getD .none
        if pyTruthy b then
          acc ++ ["\n\n📊 **Performance Comparison Chart:**\n![Performance Chart](data:image/png;base64," ++ pyStr b ++ ")"]
        else acc
      else if fc.function == "create_performance_chart" &&
          pyTruthy ((pyGet data "chart_base64").getD .none) then
        let b := pyStr ((pyGet data "chart_base64").getD .none)
        let t := match pyGet data "title" with | some (.str s) => s | _ => "Performance Chart"
        acc ++ ["\n\n📊 **" ++ t ++ ":**\n![" ++ t ++ "](data:image/png;base64," ++ b ++ ")"]
      else acc
    else acc) []

/-- chat_handler.py:168-235: the trailing provenance summary emitted after
a turn that executed at least one tool call. -/
def provenanceEvents (env : Env) (calls : List FCall) : List String :=
  if calls.isEmpty then []
  else
    ["\n\n🧰 **Tools used:** " ++ String.intercalate ", " (friendlyNames calls)] ++
    (if (docSourcesOf calls).isEmpty then []
     else ["\n\n📚 **Sources:**"] ++ docSourceLines calls) ++
    (if (webSourcesOf calls).isEmpty then []
     else ["\n\n🌐 **Web Sources:**"] ++ webSourceLines env calls) ++
    chartEvents calls

/-! ## The orchestrator (chat_handler.py:22-240 `stream_answer_with_tools`)

The async generator is embedded as a pure function over the oracle record.
Yields become an ordered `events` list; the `try`-block is an
`Except (String × St) St` computation whose error value carries the state
at the point the exception was raised (Python side effects performed
before the raise persist). -/

/-- chat_handler.py:87 `max_iterations = 3`. -/
def MAX_ITERATIONS : Nat := 3

/-- Python `re.findall(r"\w+", s)` (ASCII word characters; the embedding
uses `Char.isAlphanum` plus underscore). -/
def wordsAux : List Char → List Char → List String
  | acc, [] => if acc.isEmpty then [] else [String.mk acc.reverse]
  | acc, c :: cs =>
    if c.isAlphanum || c == '_' then wordsAux (c :: acc) cs
    else if acc.isEmpty then wordsAux [] cs
    else String.mk acc.reverse :: wordsAux [] cs

def findWords (s : String) : List String := wordsAux [] s.data

/-- The in-flight state of one turn. -/
structure St where
  events : List String
  db : Db
  messages : List Msg
  calls : List FCall
  createLog : List (List Msg × List ToolSpec × String)
  streamLog : List (List Msg)
  loopDispatchRounds : Nat
  initialDispatched : Bool
  full_response : String

/-- Execute one batch of tool calls in order (chat_handler.py:54-82 for
the first round, 106-134 for loop rounds; the two loops differ only in
the progress line).  For each call: emit the progress event, build the
`kwargs` (the retriever is injected for `search_documents` when the
handler holds one), dispatch, record the call — storing the argument dict
`execute_function_call` mutated — and append the assistant tool-call
message plus the serialized tool result message. -/
def execCalls (env : Env) (retrPresent : Bool) (progress : ToolCallReq → String)
    (tcs : List ToolCallReq) (st : St) : St :=
  tcs.foldl (fun st tc =>
    let kwargs : PyDict :=
      if tc.name == "search_documents" && retrPresent then
        [("retriever", PyVal.retrieverHandle)]
      else []
    let r := execute_function_call env tc.name tc.arguments kwargs
    { st with
      events := st.events ++ [progress tc],
      calls := st.calls ++ [⟨tc.name, r.2, r.1⟩],
      messages := st.messages ++
        [⟨"assistant", Option.none, [tc], Option.none⟩,
         ⟨"tool", some (envelopeJson r.1), [], some tc.id⟩] }) st

/-- Progress line of the first round (chat_handler.py:58). -/
def round1Progress (tc : ToolCallReq) : String :=
  "📋 **" ++ tc.name ++ "**: " ++
    (match dictGet tc.arguments "query" with
     | some v => pyStr v
     | Option.none => "Executing...") ++ "\n"

/-- Progress line of the bounded loop rounds (chat_handler.py:110). -/
def loopProgress (tc : ToolCallReq) : String :=
  "🛠️ **Calling:** " ++ tc.name ++ "\n"

/-- chat_handler.py:90-137: `while iteration < max_iterations`.  Each
iteration invokes the model once with the full tool list; a response with
tool calls is dispatched and the loop continues, an answer-only response
breaks out.  `fuel` counts the remaining iterations (starting at
`MAX_ITERATIONS`), `iter` is the 1-based iteration number used in the
progress event. -/
def toolLoop (env : Env) (oracles : Oracles) (retrPresent : Bool) :
    Nat → Nat → St → Except (String × St) St
  | 0, _, st => .ok st
  | fuel + 1, iter, st =>
    let st1 := { st with createLog := st.createLog ++ [(st.messages, AVAILABLE_TOOLS, "auto")] }
    match oracles.create st.messages AVAILABLE_TOOLS "auto" with
    | .error e => .error (e, st1)
    | .ok resp =>
      if resp.tool_calls.isEmpty then .ok st1
      else
        let st2 := { st1 with
          events := st1.events ++
            ["🔄 **Additional tools needed (iteration " ++ toString iter ++ ")...**\n\n"],
          loopDispatchRounds := st1.loopDispatchRounds + 1 }
        toolLoop env oracles retrPresent fuel (iter + 1)
          (execCalls env retrPresent loopProgress resp.tool_calls st2)

/-- chat_handler.py:160-235: the tail of the `try` block — persist the
assistant answer, derive and persist the short title (unconditionally:
`" ".join(re.findall(r"\w+", user_msg)[:4])`), then emit the provenance
summary when any tool calls were made. -/
def afterResponse (env : Env) (oracles : Oracles) (chatId userMsg : String)
    (st : St) : Except (String × St) St :=
  match oracles.persistBotFail with
  | some e => .error (e, st)
  | Option.none =>
    let st1 := { st with db := add_message st.db chatId "bot" st.full_response }
    let short_title := String.intercalate " " ((findWords userMsg).take 4)
    match oracles.persistTitleFail with
    | some e => .error (e, st1)
    | Option.none =>
      let st2 := { st1 with db := update_chat_title st1.db chatId short_title }
      .ok { st2 with events := st2.events ++ provenanceEvents env st2.calls }

/-- chat_handler.py:51-84: the first tool round — announce execution,
dispatch the initial batch of tool calls, announce completion.  The
resulting state is where the bounded loop starts. -/
def toolRoundsState (env : Env) (retrPresent : Bool) (initial : ModelResponse)
    (st1 : St) : St :=
  let st2 := { st1 with
    events := st1.events ++ ["🔧 **Executing tools...**\n\n"],
    initialDispatched := true }
  let st3 := execCalls env retrPresent round1Progress initial.tool_calls st2
  { st3 with events := st3.events ++
    ["✅ **Tool execution complete. Checking for additional tools needed...**\n\n"] }

/-- chat_handler.py:50-158: produce the turn's answer text.  When the
initial response carries no tool calls its content is the answer (lines
155-158); otherwise execute the requested calls, run the bounded loop,
and stream the final answer (lines 50-153). -/
def respondPhase (env : Env) (oracles : Oracles) (retrPresent : Bool)
    (initial : ModelResponse) (st1 : St) : Except (String × St) St :=
  if initial.tool_calls.isEmpty then
    .ok { st1 with
      events := st1.events ++ [initial.content.getD ""],
      full_response := initial.content.getD "" }
  else
    match toolLoop env oracles retrPresent MAX_ITERATIONS 1
        (toolRoundsState env retrPresent initial st1) with
    | .error es => .error es
    | .ok st5 =>
      let st6 := { st5 with
        events := st5.events ++ ["✅ **Generating final response...**\n\n"],
        streamLog := st5.streamLog ++ [st5.messages] }
      match oracles.createStream st5.messages with
      | .error e => .error (e, st6)
      | .ok tokens =>
        .ok { st6 with
          events := st6.events ++ tokens,
          full_response := String.join tokens }

/-- chat_handler.py:31-235: the `try` block of one turn — the initial
model invocation, the answer phase, then persistence and provenance. -/
def tryBody (env : Env) (oracles : Oracles) (retrPresent : Bool)
    (chatId userMsg : String) (st0 : St) : Except (String × St) St :=
  let st1 := { st0 with createLog := st0.createLog ++ [(st0.messages, AVAILABLE_TOOLS, "auto")] }
  match oracles.create st0.messages AVAILABLE_TOOLS "auto" with
  | .error e => .error (e, st1)
  | .ok initial =>
    match respondPhase env oracles retrPresent initial st1 with
    | .error es => .error es
    | .ok st7 => afterResponse env oracles chatId userMsg st7

/-- The observable outcome of one turn. -/
structure RunResult where
  chatId : String
  events : List String
  db : Db
  calls : List FCall
  createLog : List (List Msg × List ToolSpec × String)
  streamLog : List (List Msg)
  loopDispatchRounds : Nat
  initialDispatched : Bool
  failed : Option String

/-- chat_handler.py:25-36: the state at the top of the `try` block — a
chat row created when there is no current chat, the user message
persisted and echoed, and the fresh model message list (system prompt and
the new user message only). -/
def initialSt (oracles : Oracles) (chatId0 : Option String) (db0 : Db)
    (userMsg : String) : St :=
  let chatId := chatId0.getD oracles.newChatId
  let db1 := match chatId0 with
    | some _ => db0
    | Option.none => create_chat db0 oracles.newChatId "New Chat"
  { events := ["🧑 **You:** " ++ userMsg ++ "\n\n🤖 **Bot:** "],
    db := add_message db1 chatId "user" userMsg,
    messages := [⟨"system", some SYSTEM_PROMPT, [], Option.none⟩,
                 ⟨"user", some userMsg, [], Option.none⟩],
    calls := [], createLog := [], streamLog := [],
    loopDispatchRounds := 0, initialDispatched := false, full_response := "" }

/-- chat_handler.py:22-240 `stream_answer_with_tools(user_msg)`.
`chatId0` is `self.current_chat_id` on entry, `retrPresent` whether
`self.retriever` is set, `db0` the persisted store.  The turn: create a
chat row when there is no current chat; persist the user message; echo
it; run the `try` block; on an escaped exception, yield
`"Error: <message>"` and persist it as the bot message
(chat_handler.py:237-240).  Note the message list handed to the model is
built afresh at chat_handler.py:33-36 from the system prompt and the new
user message only. -/
def stream_answer_with_tools (env : Env) (oracles : Oracles) (retrPresent : Bool)
    (chatId0 : Option String) (db0 : Db) (userMsg : String) : RunResult :=
  let chatId := chatId0.getD oracles.newChatId
  let st0 := initialSt oracles chatId0 db0 userMsg
  match tryBody env oracles retrPresent chatId userMsg st0 with
  | .ok st =>
    ⟨chatId, st.events, st.db, st.calls, st.createLog, st.streamLog,
     st.loopDispatchRounds, st.initialDispatched, Option.none⟩
  | .error (e, st) =>
    let msg := "Error: " ++ e
    ⟨chatId, st.events ++ [msg], add_message st.db chatId "bot" msg, st.calls,
     st.createLog, st.streamLog, st.loopDispatchRounds, st.initialDispatched, some e⟩

/-! ## Concrete test fixtures

Closed environments and oracles used by counterexamples and witnesses.
`stubEnv` is a minimal external world: an empty retriever index, identity
set enumeration, and network-bound tool bodies that raise. -/

def stubEnv : Env :=
  { retrieve := fun _ => [],
    setListStr := id, setListVal := id,
    webBody := fun _ => .error "no network",
    cmpBody := fun _ => .error "no display",
    chartBody := fun _ => .error "no display",
    reportBody := fun _ => .error "no clock",
    finBody := fun _ => .error "no network",
    finCmpBody := fun _ => .error "no network" }

/-- A model that answers directly, with no tool calls. -/
def directOracle : Oracles :=
  { create := fun _ _ _ => .ok ⟨some "LSTM is a recurrent network.", []⟩,
    createStream := fun _ => .ok ["tok1 ", "tok2"],
    newChatId := "c1", persistBotFail := Option.none, persistTitleFail := Option.none }

/-- A model that requests a `search_web` tool call on every structured
response, no matter the history — the runaway-tool-chain scenario. -/
def greedyOracle : Oracles :=
  { create := fun _ _ _ => .ok ⟨Option.none, [⟨"t1", "search_web", [("query", .str "q")]⟩]⟩,
    createStream := fun _ => .ok ["final ", "answer"],
    newChatId := "c1", persistBotFail := Option.none, persistTitleFail := Option.none }

/-- A model that requests one `search_documents` call on the first
structured response (recognisable by its 2-message history) and answers
directly afterwards. -/
def docOracle : Oracles :=
  { create := fun msgs _ _ =>
      if msgs.length == 2 then
        .ok ⟨Option.none, [⟨"t1", "search_documents", [("query", .str "lstm")]⟩]⟩
      else .ok ⟨some "done", []⟩,
    createStream := fun _ => .ok ["done"],
    newChatId := "c1", persistBotFail := Option.none, persistTitleFail := Option.none }

/-- A model whose invocation raises a transport error. -/
def failOracle : Oracles :=
  { create := fun _ _ _ => .error "rate limited",
    createStream := fun _ => .error "rate limited",
    newChatId := "c1", persistBotFail := Option.none, persistTitleFail := Option.none }

/-- A store already holding a persisted two-message history for chat
`"c9"`. -/
def histDb : Db :=
  { chats := [("c9", "Earlier question")],
    messages := [("c9", "user", "earlier question"), ("c9", "bot", "earlier answer")] }

/-- An external world whose set enumeration happens to run in reverse
insertion order — a legitimate behaviour for CPython string sets, whose
iteration order is hash-dependent (and randomized by `PYTHONHASHSEED`). -/
def revSetEnv : Env := { stubEnv with setListVal := List.reverse }

/-- A recorded turn with one successful `search_web` call that returned
two results with urls `u1`, `u2` (in that order). -/
def webCallsFixture : List FCall :=
  [⟨"search_web", [("query", .str "q")],
    ⟨some true,
     some (.dict [("results", .list
       [.dict [("title", .str "a"), ("url", .str "http://u1")],
        .dict [("title", .str "b"), ("url", .str "http://u2")]])]),
     Option.none⟩⟩]

/-! ## C1 — dispatch envelopes -/

/-- C1, counterexample: the claim says the envelope carries
`success:false` whenever the tool name is unknown; in the code the
unknown-name branch (mcp_tools.py:713-714) returns `{"error": ...}` with
no `success` key at all, so `success` is absent rather than `false`. -/
theorem C1_counterexample :
    (execute_function_call stubEnv "nonexistent_tool" [] []).1.success ≠ some false ∧
    (execute_function_call stubEnv "nonexistent_tool" [] []).1.success = Option.none ∧
    (execute_function_call stubEnv "nonexistent_tool" [] []).1.error =
      some "Function nonexistent_tool not found" :=
  ⟨by decide, rfl, rfl⟩

/-- C1 (amended): `execute_function_call` is total — it never raises to
the orchestrator — and over all of its envelopes `success = true` holds
exactly when `error` is absent; a tool body that raises produces
`success:false` with an error message; but an unknown name produces an
envelope with `error` present and NO `success` key (not `success:false`). -/
theorem C1_dispatch_envelope (env : Env) (name : String) (args kwargs : PyDict) :
    ((execute_function_call env name args kwargs).1.success = some true ↔
      (execute_function_call env name args kwargs).1.error = Option.none) ∧
    (TOOL_FUNCTIONS env name = Option.none →
      (execute_function_call env name args kwargs).1.success = Option.none ∧
      (execute_function_call env name args kwargs).1.error =
        some ("Function " ++ name ++ " not found")) ∧
    (∀ tf, TOOL_FUNCTIONS env name = some tf →
      ∀ msg, bindArgs name tf.1 (dictUpdate args kwargs) >>= tf.2 = .error msg →
        (execute_function_call env name args kwargs).1.success = some false ∧
        (execute_function_call env name args kwargs).1.error =
          some ("Function execution failed: " ++ msg)) := by
  unfold execute_function_call
  cases h : TOOL_FUNCTIONS env name with
  | none =>
    exact ⟨by simp, fun _ => ⟨rfl, rfl⟩, fun tf htf => Option.noConfusion htf⟩
  | some tf =>
    cases hb : bindArgs name tf.1 (dictUpdate args kwargs) >>= tf.2 with
    | ok r =>
      refine ⟨by simp [hb], fun hn => Option.noConfusion hn, fun tf2 htf2 msg hmsg => ?_⟩
      injection htf2 with he; subst he
      rw [hb] at hmsg; cases hmsg
    | error e =>
      refine ⟨by simp [hb], fun hn => Option.noConfusion hn, fun tf2 htf2 msg hmsg => ?_⟩
      injection htf2 with he; subst he
      rw [hb] at hmsg
      injection hmsg with he2; subst he2
      exact ⟨by simp [hb], by simp [hb]⟩

/-- C1 witness: the amended theorem applied at a concrete failing tool
body (`search_web` with no network raises, giving `success:false`). -/
theorem C1_dispatch_envelope_witness :
    (execute_function_call stubEnv "search_web" [("query", PyVal.str "q")] []).1.success =
      some false :=
  ((C1_dispatch_envelope stubEnv "search_web" [("query", PyVal.str "q")] []).2.2
    (searchWebParams, stubEnv.webBody) rfl "no network" rfl).1

/-! ## C4 — argument validation -/

/-- C4, counterexample: the claim says unknown parameters are ignored, so
a call whose arguments satisfy the schema plus one extra unknown key
still succeeds; in the code there is no schema validation at all —
`TOOL_FUNCTIONS[name](**arguments)` raises `TypeError` on the unknown
keyword, which the `except` turns into a failure envelope. -/
theorem C4_counterexample :
    (execute_function_call stubEnv "extract_performance_metrics"
      [("text", PyVal.str "accuracy: 95"), ("technology", PyVal.str "T"),
       ("bogus", PyVal.str "x")] []).1.success = some false ∧
    (execute_function_call stubEnv "extract_performance_metrics"
      [("text", PyVal.str "accuracy: 95"), ("technology", PyVal.str "T"),
       ("bogus", PyVal.str "x")] []).1.error =
      some "Function execution failed: extract_performance_metrics() got an unexpected keyword argument bogus" :=
  ⟨rfl, rfl⟩

/-- C4 (amended): no schema-based validation precedes invocation.
Argument checking is Python call binding inside the dispatch `try`:
(a) a missing required parameter yields `success:false` with a
`TypeError`-derived message (not "missing parameter X"), uniformly in the
environment — the tool body is never invoked; (b) value types are not
checked: a wrong-typed `text` still invokes the tool, which reports its
own failure inside a `success:true` envelope; (c) an unknown extra
parameter is rejected with a `TypeError`-derived message, not ignored. -/
theorem C4_no_schema_validation (env : Env) :
    (execute_function_call env "extract_performance_metrics"
      [("technology", PyVal.str "T")] []).1 =
      ⟨some false, Option.none,
       some "Function execution failed: extract_performance_metrics() missing 1 required positional argument: text"⟩ ∧
    (execute_function_call env "extract_performance_metrics"
      [("text", PyVal.int 5), ("technology", PyVal.str "T")] []).1.success = some true ∧
    (execute_function_call env "extract_performance_metrics"
      [("text", PyVal.str "accuracy: 95"), ("technology", PyVal.str "T"),
       ("bogus", PyVal.str "x")] []).1 =
      ⟨some false, Option.none,
       some "Function execution failed: extract_performance_metrics() got an unexpected keyword argument bogus"⟩ :=
  ⟨rfl, rfl, rfl⟩

/-! ## C9 — search_documents without a retriever -/

/-- C9: dispatching `search_documents` with only a query and no
context-supplied retriever always yields a `success:false` envelope whose
error carries the `ValueError` message "Retriever instance is required"
raised at mcp_tools.py:31-32 before any retrieval; the dispatcher is
total, so no exception reaches the caller.  Uniform in the environment
and the query. -/
theorem C9_retriever_required (env : Env) (q : String) :
    (execute_function_call env "search_documents" [("query", PyVal.str q)] []).1 =
      ⟨some false, Option.none,
       some "Function execution failed: Retriever instance is required"⟩ :=
  rfl

/-! ## C8 — dispatch mutates the caller's argument dict -/

/-- C8: dispatch is not pure in its arguments.  For every known tool
name, the argument dict after `execute_function_call` is
`arguments.update(kwargs)` — the context-supplied keywords are merged
into the caller's mapping before invocation (mcp_tools.py:718).  In a
concrete turn where the handler holds a retriever and the model requests
`search_documents` with only a query, the handler's stored record of that
call's arguments (chat_handler.py:66-70) therefore contains the injected
`retriever` handle, which the model-supplied dict did not. -/
theorem C8_dispatch_mutates_arguments :
    (∀ (env : Env) (name : String) (tf : List Param × (PyDict → Except String PyVal))
        (args kwargs : PyDict), TOOL_FUNCTIONS env name = some tf →
        (execute_function_call env name args kwargs).2 = dictUpdate args kwargs) ∧
    (stream_answer_with_tools stubEnv docOracle true Option.none ⟨[], []⟩ "find lstm").calls.map
        (fun fc => fc.arguments) =
      [[("query", PyVal.str "lstm"), ("retriever", PyVal.retrieverHandle)]] ∧
    dictHasKey [("query", PyVal.str "lstm")] "retriever" = false := by
  refine ⟨fun env name tf args kwargs h => ?_, rfl, rfl⟩
  unfold execute_function_call
  rw [h]
  cases hb : bindArgs name tf.1 (dictUpdate args kwargs) >>= tf.2 <;> simp [hb]

/-- C8 witness: the mutation equation applied at a concrete call. -/
theorem C8_dispatch_mutates_arguments_witness :
    (execute_function_call stubEnv "search_web" [("query", PyVal.str "q")]
      [("k", PyVal.int 1)]).2 =
      dictUpdate [("query", PyVal.str "q")] [("k", PyVal.int 1)] :=
  C8_dispatch_mutates_arguments.1 stubEnv "search_web" (searchWebParams, stubEnv.webBody)
    [("query", PyVal.str "q")] [("k", PyVal.int 1)] rfl

/-! ## C10 — extract_performance_metrics -/

/-- Looking up a key through the `PyVal.num` image of a rational table. -/
theorem dictGet_map_num (l : List (String × Rat)) (k : String) :
    dictGet (l.map (fun p => (p.1, PyVal.num p.2))) k = (l.lookup k).map PyVal.num := by
  induction l with
  | nil => rfl
  | cons hd tl ih =>
    obtain ⟨a, b⟩ := hd
    by_cases h : a = k
    · subst h; simp [dictGet, List.lookup]
    · have h1 : (a == k) = false := beq_false_of_ne h
      have h2 : (k == a) = false := beq_false_of_ne (Ne.symm h)
      simp only [List.map_cons, dictGet, List.find?, List.lookup, h1, h2]
      exact ih

/-- The keys bound by the extraction loop form a subsequence of the
pattern keys. -/
theorem extractMetrics_keys (pats : List (String × MetricPattern)) (tl : String) :
    ((extractMetrics pats tl).map Prod.fst).Sublist (pats.map Prod.fst) := by
  induction pats with
  | nil => simp [extractMetrics]
  | cons hd rest ih =>
    obtain ⟨m, p⟩ := hd
    cases h : (findFirst p tl.data).bind pyFloat with
    | none =>
      simp only [extractMetrics, h, List.map_cons]
      exact ih.cons m
    | some v =>
      simp only [extractMetrics, h, List.map_cons]
      exact ih.cons₂ m

/-- A key absent from the patterns is absent from the extracted table. -/
theorem extractMetrics_lookup_not_mem (tl : String) :
    ∀ (pats : List (String × MetricPattern)) (m : String),
      m ∉ pats.map Prod.fst → (extractMetrics pats tl).lookup m = Option.none := by
  intro pats
  induction pats with
  | nil => intro m _; rfl
  | cons hd rest ih =>
    intro m hm
    obtain ⟨m1, p1⟩ := hd
    simp only [List.map_cons, List.mem_cons, not_or] at hm
    cases h : (findFirst p1 tl.data).bind pyFloat with
    | none =>
      simp only [extractMetrics, h]
      exact ih m hm.2
    | some v =>
      simp only [extractMetrics, h, List.lookup, beq_false_of_ne hm.1]
      exact ih m hm.2

/-- The central fact of the extraction loop: under distinct pattern keys,
the value bound to a metric is exactly the first regex match of its
pattern in the text, converted by `float`, or absent. -/
theorem extractMetrics_lookup (tl : String) :
    ∀ (pats : List (String × MetricPattern)) (m : String) (p : MetricPattern),
      (pats.map Prod.fst).Nodup → (m, p) ∈ pats →
      (extractMetrics pats tl).lookup m = (findFirst p tl.data).bind pyFloat := by
  intro pats
  induction pats with
  | nil => intro m p _ hm; cases hm
  | cons hd rest ih =>
    intro m p hnd hm
    obtain ⟨m1, p1⟩ := hd
    simp only [List.map_cons, List.nodup_cons] at hnd
    rcases List.mem_cons.mp hm with heq | hmem
    · rw [Prod.mk.injEq] at heq
      obtain ⟨h1, h2⟩ := heq
      subst h1; subst h2
      cases h : (findFirst p tl.data).bind pyFloat with
      | none =>
        simp only [extractMetrics, h]
        exact extractMetrics_lookup_not_mem tl rest m hnd.1
      | some v =>
        simp [extractMetrics, h, List.lookup]
    · have hne : m ≠ m1 := by
        intro he
        exact hnd.1 (he ▸ List.mem_map.mpr ⟨(m, p), hmem, rfl⟩)
      cases h : (findFirst p1 tl.data).bind pyFloat with
      | none =>
        simp only [extractMetrics, h]
        exact ih m p hnd.2 hmem
      | some v =>
        simp only [extractMetrics, h, List.lookup, beq_false_of_ne hne]
        exact ih m p hnd.2 hmem

/-- C10: for every text and technology string,
`extract_performance_metrics` returns the success dict (no `"error"`
key, `"name"` bound to the technology) whose `"metrics"` mapping has
pairwise-distinct keys drawn from the six configured metric names, and
binds each of the six names to exactly the first regex match of its
pattern in the lowercased text converted to `float` — absent when the
pattern has no match or the match fails to parse. -/
theorem C10_extract_metrics (text technology : String) :
    ∃ ms : List (String × Rat),
      pyGet (extract_performance_metrics text technology) "metrics" =
        some (.dict (ms.map (fun p => (p.1, PyVal.num p.2)))) ∧
      pyGet (extract_performance_metrics text technology) "error" = Option.none ∧
      pyGet (extract_performance_metrics text technology) "name" =
        some (.str technology) ∧
      (ms.map Prod.fst).Sublist (METRIC_PATTERNS.map Prod.fst) ∧
      (ms.map Prod.fst).Nodup ∧
      ms.lookup "accuracy" = (findFirst ⟨"accuracy", false⟩ text.toLower.data).bind pyFloat ∧
      ms.lookup "speed" = (findFirst ⟨"speed", false⟩ text.toLower.data).bind pyFloat ∧
      ms.lookup "memory" = (findFirst ⟨"memory", false⟩ text.toLower.data).bind pyFloat ∧
      ms.lookup "parameters" = (findFirst ⟨"parameter", true⟩ text.toLower.data).bind pyFloat ∧
      ms.lookup "training_time" = (findFirst ⟨"training", false⟩ text.toLower.data).bind pyFloat ∧
      ms.lookup "inference_time" = (findFirst ⟨"inference", false⟩ text.toLower.data).bind pyFloat := by
  refine ⟨extractMetrics METRIC_PATTERNS text.toLower, rfl, rfl, rfl,
    extractMetrics_keys _ _,
    (extractMetrics_keys _ _).nodup (by decide),
    extractMetrics_lookup _ _ _ _ (by decide) (by decide),
    extractMetrics_lookup _ _ _ _ (by decide) (by decide),
    extractMetrics_lookup _ _ _ _ (by decide) (by decide),
    extractMetrics_lookup _ _ _ _ (by decide) (by decide),
    extractMetrics_lookup _ _ _ _ (by decide) (by decide),
    extractMetrics_lookup _ _ _ _ (by decide) (by decide)⟩

/-! ## C5 — provenance rendering -/

/-- Set insertion preserves distinctness. -/
theorem addStrSet_nodup {acc : List String} (s : String) (h : acc.Nodup) :
    (addStrSet acc s).Nodup := by
  unfold addStrSet
  by_cases hc : acc.contains s
  · simp [List.mem_of_elem_eq_true hc, h]
  · have hmem : s ∉ acc := fun hm => hc (List.elem_eq_true_of_mem hm)
    simp [hc, List.nodup_append, h, hmem]

theorem strAdd_nodup {acc : List String} (v : PyVal) (h : acc.Nodup) :
    (strAdd acc v).Nodup := by
  cases v <;> first | exact h | exact addStrSet_nodup _ h

theorem foldl_strAdd_nodup (ss : List PyVal) :
    ∀ {acc : List String}, acc.Nodup → (ss.foldl strAdd acc).Nodup := by
  induction ss with
  | nil => intro acc h; exact h
  | cons hd tl ih => intro acc h; exact ih (strAdd_nodup hd h)

theorem docSourceStep_nodup (fc : FCall) {acc : List String} (h : acc.Nodup) :
    (docSourceStep acc fc).Nodup := by
  unfold docSourceStep
  split
  · split
    · split
      · exact h
      · exact foldl_strAdd_nodup _ h
    all_goals exact h
  · exact h

/-- The collected document sources are pairwise distinct — `doc_sources`
is a Python set. -/
theorem docSourcesOf_nodup (calls : List FCall) : (docSourcesOf calls).Nodup := by
  suffices h : ∀ acc : List String, acc.Nodup → (calls.foldl docSourceStep acc).Nodup from
    h [] List.nodup_nil
  induction calls with
  | nil => intro acc h; exact h
  | cons hd tl ih => intro acc h; exact ih _ (docSourceStep_nodup hd h)

/-- C5, counterexample: the claim says the "Web Sources" block lists urls
in first-seen order.  `web_sources` is a Python set and the handler
renders `list(web_sources)[:3]`; set iteration order is hash-dependent,
not insertion order.  With the recorded first-seen order `u1, u2` and a
legitimate set enumeration (a permutation of the elements — here the
reverse), the rendered block lists `u2` before `u1`. -/
theorem C5_counterexample :
    webSourcesOf webCallsFixture = [.str "http://u1", .str "http://u2"] ∧
    webSourceLines revSetEnv webCallsFixture =
      ["\nSource: http://u2", "\nSource: http://u1"] ∧
    (revSetEnv.setListVal (webSourcesOf webCallsFixture)).Perm
      (webSourcesOf webCallsFixture) :=
  ⟨rfl, rfl, List.reverse_perm _⟩

/-- C5 (amended): in the rendered provenance summary the "Sources" block
lists the deduplicated document sources in sorted order, and the
"Web Sources" block contains at most 3 web urls — but in the unspecified
set-enumeration order, not necessarily first-seen order.  Uniform in the
environment (hence in the set-enumeration behaviour) and in the recorded
calls. -/
theorem C5_provenance_blocks (env : Env) (calls : List FCall) :
    docSourceLines calls =
      (List.insertionSort (fun a b : String => a ≤ b) (docSourcesOf calls)).map
        (fun s => "\nSource: " ++ s) ∧
    List.Sorted (fun a b : String => a ≤ b)
      (List.insertionSort (fun a b : String => a ≤ b) (docSourcesOf calls)) ∧
    (List.insertionSort (fun a b : String => a ≤ b) (docSourcesOf calls)).Nodup ∧
    (List.insertionSort (fun a b : String => a ≤ b) (docSourcesOf calls)).Perm
      (docSourcesOf calls) ∧
    (webSourceLines env calls).length ≤ 3 := by
  refine ⟨rfl, List.sorted_insertionSort _ _, ?_, List.perm_insertionSort _ _, ?_⟩
  · exact (List.perm_insertionSort _ _).nodup_iff.mpr (docSourcesOf_nodup calls)
  · calc (webSourceLines env calls).length
        = ((env.setListVal (webSourcesOf calls)).take 3).length := by
          simp [webSourceLines]
      _ ≤ 3 := List.length_take_le 3 _

/-! ## Frame lemmas about the orchestrator state machine -/

/-- The state carried by either outcome of a fallible step (Python keeps
all side effects performed before a raise). -/
def outSt : Except (String × St) St → St
  | .ok st => st
  | .error es => es.2

/-- Executing a batch of tool calls only touches `events`, `calls` and
`messages`. -/
theorem execCalls_frame (env : Env) (retrPresent : Bool)
    (progress : ToolCallReq → String) (tcs : List ToolCallReq) :
    ∀ st : St,
      (execCalls env retrPresent progress tcs st).createLog = st.createLog ∧
      (execCalls env retrPresent progress tcs st).streamLog = st.streamLog ∧
      (execCalls env retrPresent progress tcs st).db = st.db ∧
      (execCalls env retrPresent progress tcs st).loopDispatchRounds =
        st.loopDispatchRounds ∧
      (execCalls env retrPresent progress tcs st).initialDispatched =
        st.initialDispatched ∧
      (execCalls env retrPresent progress tcs st).full_response = st.full_response := by
  induction tcs with
  | nil => intro st; exact ⟨rfl, rfl, rfl, rfl, rfl, rfl⟩
  | cons hd tl ih =>
    intro st
    simpa [execCalls, List.foldl_cons] using ih _

/-- The bounded loop: never touches the store, the stream log, the
initial-dispatch flag or the answer; performs at most `fuel` additional
dispatch rounds; and only appends model invocations that carry the full
tool list with tool-choice `"auto"`. -/
theorem toolLoop_frame (env : Env) (oracles : Oracles) (retrPresent : Bool) :
    ∀ (fuel iter : Nat) (st : St),
      (outSt (toolLoop env oracles retrPresent fuel iter st)).db = st.db ∧
      (outSt (toolLoop env oracles retrPresent fuel iter st)).streamLog =
        st.streamLog ∧
      (outSt (toolLoop env oracles retrPresent fuel iter st)).initialDispatched =
        st.initialDispatched ∧
      (outSt (toolLoop env oracles retrPresent fuel iter st)).full_response =
        st.full_response ∧
      (outSt (toolLoop env oracles retrPresent fuel iter st)).loopDispatchRounds ≤
        st.loopDispatchRounds + fuel ∧
      ∃ extra,
        (outSt (toolLoop env oracles retrPresent fuel iter st)).createLog =
          st.createLog ++ extra ∧
        ∀ x ∈ extra, x.2.1 = AVAILABLE_TOOLS ∧ x.2.2 = "auto" := by
  intro fuel
  induction fuel with
  | zero =>
    intro iter st
    exact ⟨rfl, rfl, rfl, rfl, Nat.le_refl _,
      ⟨[], (List.append_nil _).symm, fun x hx => absurd hx (List.not_mem_nil x)⟩⟩
  | succ n ih =>
    intro iter st
    cases hresp : oracles.create st.messages AVAILABLE_TOOLS "auto" with
    | error e =>
      simp only [toolLoop, hresp]
      refine ⟨rfl, rfl, rfl, rfl, Nat.le_add_right _ _,
        ⟨[(st.messages, AVAILABLE_TOOLS, "auto")], rfl, ?_⟩⟩
      intro x hx
      rw [List.mem_singleton.mp hx]
      exact ⟨rfl, rfl⟩
    | ok resp =>
      by_cases hemp : resp.tool_calls.isEmpty
      · simp only [toolLoop, hresp, hemp, if_true]
        refine ⟨rfl, rfl, rfl, rfl, Nat.le_add_right _ _,
          ⟨[(st.messages, AVAILABLE_TOOLS, "auto")], rfl, ?_⟩⟩
        intro x hx
        rw [List.mem_singleton.mp hx]
        exact ⟨rfl, rfl⟩
      · have hemp2 : resp.tool_calls.isEmpty = false := by
          simpa using hemp
        simp only [toolLoop, hresp, hemp2, if_neg Bool.false_ne_true]
        obtain ⟨h1, h2, h3, h4, h5, extra, h6, h7⟩ := ih (iter + 1)
          (execCalls env retrPresent loopProgress resp.tool_calls
            { st with
              events := st.events ++
                ["🔄 **Additional tools needed (iteration " ++ toString iter ++ ")...**\n\n"],
              createLog := st.createLog ++ [(st.messages, AVAILABLE_TOOLS, "auto")],
              loopDispatchRounds := st.loopDispatchRounds + 1 })
        obtain ⟨f1, f2, f3, f4, f5, f6⟩ := execCalls_frame env retrPresent loopProgress
          resp.tool_calls
          { st with
            events := st.events ++
              ["🔄 **Additional tools needed (iteration " ++ toString iter ++ ")...**\n\n"],
            createLog := st.createLog ++ [(st.messages, AVAILABLE_TOOLS, "auto")],
            loopDispatchRounds := st.loopDispatchRounds + 1 }
        refine ⟨?_, ?_, ?_, ?_, ?_,
          ⟨(st.messages, AVAILABLE_TOOLS, "auto") :: extra, ?_, ?_⟩⟩
        · rw [h1, f3]
        · rw [h2, f2]
        · rw [h3, f5]
        · rw [h4, f6]
        · refine le_trans h5 ?_
          rw [f4]
          dsimp only
          omega
        · rw [h6, f1]
          simp
        · intro x hx
          rcases List.mem_cons.mp hx with h | h
          · rw [h]; exact ⟨rfl, rfl⟩
          · exact h7 x h

/-- The persistence/provenance tail: on success it appends exactly the
bot message carrying the answer to the store; on a raise it leaves the
store with either no new message or that same bot message; it never
touches the logs, the counters or the recorded calls. -/
theorem afterResponse_spec (env : Env) (oracles : Oracles) (chatId userMsg : String)
    (st : St) :
    (∀ st', afterResponse env oracles chatId userMsg st = .ok st' →
      st'.db.messages = st.db.messages ++ [(chatId, "bot", st.full_response)] ∧
      st'.createLog = st.createLog ∧ st'.streamLog = st.streamLog ∧
      st'.loopDispatchRounds = st.loopDispatchRounds ∧
      st'.initialDispatched = st.initialDispatched ∧
      st'.calls = st.calls ∧ st'.full_response = st.full_response) ∧
    (∀ e st', afterResponse env oracles chatId userMsg st = .error (e, st') →
      (st'.db.messages = st.db.messages ∨
       st'.db.messages = st.db.messages ++ [(chatId, "bot", st.full_response)]) ∧
      st'.createLog = st.createLog ∧ st'.streamLog = st.streamLog ∧
      st'.loopDispatchRounds = st.loopDispatchRounds ∧
      st'.initialDispatched = st.initialDispatched) ∧
    (outSt (afterResponse env oracles chatId userMsg st)).loopDispatchRounds =
      st.loopDispatchRounds ∧
    (outSt (afterResponse env oracles chatId userMsg st)).createLog = st.createLog := by
  cases hb : oracles.persistBotFail with
  | some e0 =>
    simp only [afterResponse, hb]
    refine ⟨?_, ?_, rfl, rfl⟩
    · intro st' h
      cases h
    · intro e st' h
      injection h with hp
      rw [Prod.mk.injEq] at hp
      rw [← hp.2]
      exact ⟨Or.inl rfl, rfl, rfl, rfl, rfl⟩
  | none =>
    cases ht : oracles.persistTitleFail with
    | some e1 =>
      simp only [afterResponse, hb, ht]
      refine ⟨?_, ?_, rfl, rfl⟩
      · intro st' h
        cases h
      · intro e st' h
        injection h with hp
        rw [Prod.mk.injEq] at hp
        rw [← hp.2]
        exact ⟨Or.inr rfl, rfl, rfl, rfl, rfl⟩
    | none =>
      simp only [afterResponse, hb, ht]
      refine ⟨?_, ?_, rfl, rfl⟩
      · intro st' h
        injection h with hp
        rw [← hp]
        exact ⟨rfl, rfl, rfl, rfl, rfl, rfl, rfl⟩
      · intro e st' h
        cases h

/-- The first tool round touches only `events`, `calls` and
`messages`. -/
theorem toolRoundsState_frame (env : Env) (retrPresent : Bool)
    (initial : ModelResponse) (st1 : St) :
    (toolRoundsState env retrPresent initial st1).db = st1.db ∧
    (toolRoundsState env retrPresent initial st1).createLog = st1.createLog ∧
    (toolRoundsState env retrPresent initial st1).loopDispatchRounds =
      st1.loopDispatchRounds ∧
    (toolRoundsState env retrPresent initial st1).streamLog = st1.streamLog := by
  obtain ⟨f1, f2, f3, f4, f5, f6⟩ := execCalls_frame env retrPresent round1Progress
    initial.tool_calls
    { st1 with
      events := st1.events ++ ["🔧 **Executing tools...**\n\n"],
      initialDispatched := true }
  exact ⟨f3, f1, f4, f2⟩

/-- The answer phase: never touches the store, the dispatch counter grows
by at most `MAX_ITERATIONS`, and every model invocation it logs carries
the full tool list with tool-choice `"auto"`. -/
theorem respondPhase_spec (env : Env) (oracles : Oracles) (retrPresent : Bool)
    (initial : ModelResponse) (st1 : St) :
    (outSt (respondPhase env oracles retrPresent initial st1)).db = st1.db ∧
    (outSt (respondPhase env oracles retrPresent initial st1)).loopDispatchRounds ≤
      st1.loopDispatchRounds + MAX_ITERATIONS ∧
    ∃ extra,
      (outSt (respondPhase env oracles retrPresent initial st1)).createLog =
        st1.createLog ++ extra ∧
      ∀ x ∈ extra, x.2.1 = AVAILABLE_TOOLS ∧ x.2.2 = "auto" := by
  obtain ⟨t1, t2, t3, t4⟩ := toolRoundsState_frame env retrPresent initial st1
  obtain ⟨l1, l2, l3, l4, l5, lextra, l6, l7⟩ := toolLoop_frame env oracles retrPresent
    MAX_ITERATIONS 1 (toolRoundsState env retrPresent initial st1)
  by_cases hemp : initial.tool_calls.isEmpty
  · simp only [respondPhase, hemp, if_true]
    exact ⟨rfl, Nat.le_add_right _ _,
      ⟨[], (List.append_nil _).symm, fun x hx => absurd hx (List.not_mem_nil x)⟩⟩
  · have hemp2 : initial.tool_calls.isEmpty = false := by simpa using hemp
    simp only [respondPhase, hemp2, if_neg Bool.false_ne_true]
    cases hloop : toolLoop env oracles retrPresent MAX_ITERATIONS 1
        (toolRoundsState env retrPresent initial st1) with
    | error es =>
      rw [hloop] at l1 l5 l6
      simp only [outSt] at l1 l5 l6
      dsimp only [outSt]
      refine ⟨?_, ?_, ⟨lextra, ?_, l7⟩⟩
      · rw [l1]; exact t1
      · rw [t3] at l5; exact l5
      · rw [l6, t2]
    | ok st5 =>
      rw [hloop] at l1 l5 l6
      simp only [outSt] at l1 l5 l6
      dsimp only
      have hdb : st5.db = st1.db := by rw [l1]; exact t1
      have hrounds : st5.loopDispatchRounds ≤ st1.loopDispatchRounds + MAX_ITERATIONS := by
        rw [t3] at l5; exact l5
      have hlog : st5.createLog = st1.createLog ++ lextra := by rw [l6, t2]
      cases hstream : oracles.createStream st5.messages with
      | error e =>
        dsimp only [outSt]
        exact ⟨hdb, hrounds, ⟨lextra, hlog, l7⟩⟩
      | ok tokens =>
        dsimp only [outSt]
        exact ⟨hdb, hrounds, ⟨lextra, hlog, l7⟩⟩

/-- The `try` block: a successful run appends exactly one bot message to
the store after the user message; a raising run leaves at most one bot
message behind; at most `MAX_ITERATIONS` additional dispatch rounds
happen; and the invocation log starts with the fresh two-message history
and carries the full tool list with tool-choice `"auto"` throughout. -/
theorem tryBody_spec (env : Env) (oracles : Oracles) (retr : Bool)
    (chatId userMsg : String) (st0 : St) :
    (∀ st', tryBody env oracles retr chatId userMsg st0 = .ok st' →
      ∃ fr, st'.db.messages = st0.db.messages ++ [(chatId, "bot", fr)]) ∧
    (∀ e st', tryBody env oracles retr chatId userMsg st0 = .error (e, st') →
      st'.db.messages = st0.db.messages ∨
      ∃ fr, st'.db.messages = st0.db.messages ++ [(chatId, "bot", fr)]) ∧
    (outSt (tryBody env oracles retr chatId userMsg st0)).loopDispatchRounds ≤
      st0.loopDispatchRounds + MAX_ITERATIONS ∧
    ∃ extra,
      (outSt (tryBody env oracles retr chatId userMsg st0)).createLog =
        st0.createLog ++ (st0.messages, AVAILABLE_TOOLS, "auto") :: extra ∧
      ∀ x ∈ extra, x.2.1 = AVAILABLE_TOOLS ∧ x.2.2 = "auto" := by
  cases hresp : oracles.create st0.messages AVAILABLE_TOOLS "auto" with
  | error e0 =>
    simp only [tryBody, hresp]
    refine ⟨?_, ?_, Nat.le_add_right _ _,
      ⟨[], rfl, fun x hx => absurd hx (List.not_mem_nil x)⟩⟩
    · intro st' h
      cases h
    · intro e st' h
      injection h with hp
      rw [Prod.mk.injEq] at hp
      rw [← hp.2]
      exact Or.inl rfl
  | ok initial =>
    obtain ⟨r1, r2, rextra, r3, r4⟩ := respondPhase_spec env oracles retr initial
      { st0 with createLog := st0.createLog ++ [(st0.messages, AVAILABLE_TOOLS, "auto")] }
    simp only [tryBody, hresp]
    cases hrp : respondPhase env oracles retr initial
        { st0 with createLog := st0.createLog ++ [(st0.messages, AVAILABLE_TOOLS, "auto")] } with
    | error es =>
      rw [hrp] at r1 r2 r3
      simp only [outSt] at r1 r2 r3
      refine ⟨?_, ?_, ?_, ⟨rextra, ?_, r4⟩⟩
      · intro st' h
        cases h
      · intro e st' h
        injection h with hp
        rw [Prod.mk.injEq] at hp
        rw [← hp.2]
        left
        rw [r1]
      · dsimp only [outSt]
        exact r2
      · dsimp only [outSt]
        rw [r3]
        simp
    | ok st7 =>
      rw [hrp] at r1 r2 r3
      simp only [outSt] at r1 r2 r3
      obtain ⟨ha1, ha2, ha3, ha4⟩ := afterResponse_spec env oracles chatId userMsg st7
      refine ⟨?_, ?_, ?_, ⟨rextra, ?_, r4⟩⟩
      · intro st' h
        obtain ⟨hm, -, -, -, -, -, -⟩ := ha1 st' h
        refine ⟨st7.full_response, ?_⟩
        rw [hm, r1]
      · intro e st' h
        obtain ⟨hm, -, -, -, -⟩ := ha2 e st' h
        rcases hm with hm | hm
        · left
          rw [hm, r1]
        · right
          exact ⟨st7.full_response, by rw [hm, r1]⟩
      · rw [ha3]
        exact r2
      · rw [ha4, r3]
        simp

/-- The state at the top of the `try` block: the store has gained exactly
the user message (chat creation touches only the chats table), the logs
and counters are zeroed, and the model message list is the fresh
two-message history. -/
theorem initialSt_fields (oracles : Oracles) (chatId0 : Option String) (db0 : Db)
    (userMsg : String) :
    (initialSt oracles chatId0 db0 userMsg).db.messages =
      db0.messages ++ [(chatId0.getD oracles.newChatId, "user", userMsg)] ∧
    (initialSt oracles chatId0 db0 userMsg).createLog = [] ∧
    (initialSt oracles chatId0 db0 userMsg).loopDispatchRounds = 0 ∧
    (initialSt oracles chatId0 db0 userMsg).streamLog = [] ∧
    (initialSt oracles chatId0 db0 userMsg).messages =
      [⟨"system", some SYSTEM_PROMPT, [], Option.none⟩,
       ⟨"user", some userMsg, [], Option.none⟩] := by
  cases chatId0 <;> exact ⟨rfl, rfl, rfl, rfl, rfl⟩

/-! ## C7 — every started turn ends with persisted bot content -/

/-- C7: for every turn — over all model oracles (which may raise at any
invocation) and persistence behaviours of the in-`try` writes — the store
after the turn extends the previous store with the user message followed
(possibly after an intermediate bot message, when the title write fails
after the answer write succeeded) by a final bot-role message; and when
an exception escaped the `try` block, that final message is
`"Error: <message>"`, which is also the last emitted output event.  The
closing error write of chat_handler.py:240 is the step-8 recovery itself
and is modelled as succeeding. -/
theorem C7_turn_ends_with_bot (env : Env) (oracles : Oracles) (retr : Bool)
    (chatId0 : Option String) (db0 : Db) (userMsg : String) :
    ∃ mid botTxt,
      (stream_answer_with_tools env oracles retr chatId0 db0 userMsg).db.messages =
        db0.messages ++
        [((stream_answer_with_tools env oracles retr chatId0 db0 userMsg).chatId,
          "user", userMsg)] ++ mid ++
        [((stream_answer_with_tools env oracles retr chatId0 db0 userMsg).chatId,
          "bot", botTxt)] ∧
      (match (stream_answer_with_tools env oracles retr chatId0 db0 userMsg).failed with
       | some e =>
         botTxt = "Error: " ++ e ∧
         (stream_answer_with_tools env oracles retr chatId0 db0 userMsg).events.getLast? =
           some ("Error: " ++ e)
       | Option.none => True) := by
  obtain ⟨hdb0, -, -, -, -⟩ := initialSt_fields oracles chatId0 db0 userMsg
  obtain ⟨hok, herr, -, -⟩ := tryBody_spec env oracles retr
    (chatId0.getD oracles.newChatId) userMsg (initialSt oracles chatId0 db0 userMsg)
  simp only [stream_answer_with_tools]
  cases htb : tryBody env oracles retr (chatId0.getD oracles.newChatId) userMsg
      (initialSt oracles chatId0 db0 userMsg) with
  | ok st =>
    obtain ⟨fr, hm⟩ := hok st htb
    refine ⟨[], fr, ?_, trivial⟩
    dsimp only
    rw [hm, hdb0]
    simp
  | error es =>
    obtain ⟨e, st⟩ := es
    have hlast : (st.events ++ ["Error: " ++ e]).getLast? = some ("Error: " ++ e) :=
      List.getLast?_concat _
    rcases herr e st htb with hm | ⟨fr, hm⟩
    · refine ⟨[], "Error: " ++ e, ?_, ?_⟩
      · dsimp only [add_message]
        rw [hm, hdb0]
        simp
      · exact ⟨rfl, hlast⟩
    · refine ⟨[((chatId0.getD oracles.newChatId), "bot", fr)], "Error: " ++ e, ?_, ?_⟩
      · dsimp only [add_message]
        rw [hm, hdb0]
      · exact ⟨rfl, hlast⟩

/-! ## C2 — the iteration bound -/

/-- Under a model that requests tools on every structured response, the
bounded loop runs all its iterations: every one of its `fuel` model
invocations is answered with tool calls and dispatched. -/
theorem toolLoop_greedy (env : Env) (oracles : Oracles) (retr : Bool)
    (hgreedy : ∀ msgs, ∃ resp,
      oracles.create msgs AVAILABLE_TOOLS "auto" = .ok resp ∧ resp.tool_calls ≠ []) :
    ∀ (fuel iter : Nat) (st : St),
      ∃ st', toolLoop env oracles retr fuel iter st = .ok st' ∧
        st'.loopDispatchRounds = st.loopDispatchRounds + fuel ∧
        st'.createLog.length = st.createLog.length + fuel := by
  intro fuel
  induction fuel with
  | zero => intro iter st; exact ⟨st, rfl, rfl, rfl⟩
  | succ n ih =>
    intro iter st
    obtain ⟨resp, hresp, hne⟩ := hgreedy st.messages
    have hemp : resp.tool_calls.isEmpty = false := by
      cases h : resp.tool_calls with
      | nil => exact absurd h hne
      | cons a l => rfl
    obtain ⟨st', hloop, hrounds, hlen⟩ := ih (iter + 1)
      (execCalls env retr loopProgress resp.tool_calls
        { st with
          events := st.events ++
            ["🔄 **Additional tools needed (iteration " ++ toString iter ++ ")...**\n\n"],
          createLog := st.createLog ++ [(st.messages, AVAILABLE_TOOLS, "auto")],
          loopDispatchRounds := st.loopDispatchRounds + 1 })
    obtain ⟨f1, f2, f3, f4, f5, f6⟩ := execCalls_frame env retr loopProgress
      resp.tool_calls
      { st with
        events := st.events ++
          ["🔄 **Additional tools needed (iteration " ++ toString iter ++ ")...**\n\n"],
        createLog := st.createLog ++ [(st.messages, AVAILABLE_TOOLS, "auto")],
        loopDispatchRounds := st.loopDispatchRounds + 1 }
    refine ⟨st', ?_, ?_, ?_⟩
    · simp only [toolLoop, hresp, hemp, if_neg Bool.false_ne_true]
      exact hloop
    · rw [hrounds, f4]
      dsimp only
      omega
    · rw [hlen, f1]
      dsimp only
      simp [List.length_append]
      omega

/-- Under a greedy model with working streaming and an initial response
that requests tools, the answer phase succeeds after exactly
`MAX_ITERATIONS` additional dispatch rounds, logging `MAX_ITERATIONS`
further tool-bearing model calls and one streaming call, without touching
the store. -/
theorem respondPhase_greedy (env : Env) (oracles : Oracles) (retr : Bool)
    (initial : ModelResponse) (st1 : St)
    (hgreedy : ∀ msgs, ∃ resp,
      oracles.create msgs AVAILABLE_TOOLS "auto" = .ok resp ∧ resp.tool_calls ≠ [])
    (hne : initial.tool_calls ≠ [])
    (hstream : ∀ msgs, ∃ toks, oracles.createStream msgs = .ok toks) :
    ∃ st7, respondPhase env oracles retr initial st1 = .ok st7 ∧
      st7.loopDispatchRounds = st1.loopDispatchRounds + MAX_ITERATIONS ∧
      st7.createLog.length = st1.createLog.length + MAX_ITERATIONS ∧
      st7.streamLog.length = st1.streamLog.length + 1 ∧
      st7.db = st1.db := by
  have hemp : initial.tool_calls.isEmpty = false := by
    cases h : initial.tool_calls with
    | nil => exact absurd h hne
    | cons a l => rfl
  obtain ⟨st5, hloop, hrounds, hlen⟩ := toolLoop_greedy env oracles retr hgreedy
    MAX_ITERATIONS 1 (toolRoundsState env retr initial st1)
  obtain ⟨t1, t2, t3, t4⟩ := toolRoundsState_frame env retr initial st1
  obtain ⟨l1, l2, -, -, -, -, -⟩ := toolLoop_frame env oracles retr MAX_ITERATIONS 1
    (toolRoundsState env retr initial st1)
  rw [hloop] at l1 l2
  simp only [outSt] at l1 l2
  obtain ⟨toks, htoks⟩ := hstream st5.messages
  have heval : respondPhase env oracles retr initial st1 = .ok
      { events := st5.events ++ ["✅ **Generating final response...**\n\n"] ++ toks,
        db := st5.db, messages := st5.messages, calls := st5.calls,
        createLog := st5.createLog, streamLog := st5.streamLog ++ [st5.messages],
        loopDispatchRounds := st5.loopDispatchRounds,
        initialDispatched := st5.initialDispatched,
        full_response := String.join toks } := by
    simp only [respondPhase, hemp, if_neg Bool.false_ne_true, hloop, htoks]
  refine ⟨_, heval, ?_, ?_, ?_, ?_⟩
  · show st5.loopDispatchRounds = _
    rw [hrounds, t3]
  · show st5.createLog.length = _
    rw [hlen, t2]
  · show (st5.streamLog ++ [st5.messages]).length = _
    rw [List.length_append, l2, t4]
    rfl
  · show st5.db = st1.db
    rw [l1, t1]

/-- With persistence succeeding, the persistence/provenance tail returns
normally. -/
theorem afterResponse_ok (env : Env) (oracles : Oracles) (chatId userMsg : String)
    (st : St) (hbot : oracles.persistBotFail = Option.none)
    (htitle : oracles.persistTitleFail = Option.none) :
    ∃ st', afterResponse env oracles chatId userMsg st = .ok st' := by
  simp only [afterResponse, hbot, htitle]
  exact ⟨_, rfl⟩

/-- The whole `try` block under a greedy model: it succeeds with exactly
`1 + MAX_ITERATIONS` tool-bearing model invocations, `MAX_ITERATIONS`
additional dispatch rounds, one streaming call, and one persisted bot
answer. -/
theorem tryBody_greedy (env : Env) (oracles : Oracles) (retr : Bool)
    (chatId userMsg : String) (st0 : St)
    (hgreedy : ∀ msgs, ∃ resp,
      oracles.create msgs AVAILABLE_TOOLS "auto" = .ok resp ∧ resp.tool_calls ≠ [])
    (hstream : ∀ msgs, ∃ toks, oracles.createStream msgs = .ok toks)
    (hbot : oracles.persistBotFail = Option.none)
    (htitle : oracles.persistTitleFail = Option.none) :
    ∃ stF, tryBody env oracles retr chatId userMsg st0 = .ok stF ∧
      stF.loopDispatchRounds = st0.loopDispatchRounds + MAX_ITERATIONS ∧
      stF.createLog.length = st0.createLog.length + 1 + MAX_ITERATIONS ∧
      stF.streamLog.length = st0.streamLog.length + 1 ∧
      stF.db.messages = st0.db.messages ++ [(chatId, "bot", stF.full_response)] := by
  obtain ⟨resp, hresp, hne⟩ := hgreedy st0.messages
  obtain ⟨st7, hrp, hrounds, hlen, hslen, hdb⟩ := respondPhase_greedy env oracles retr
    resp { st0 with createLog := st0.createLog ++ [(st0.messages, AVAILABLE_TOOLS, "auto")] }
    hgreedy hne hstream
  obtain ⟨stF, hafter⟩ := afterResponse_ok env oracles chatId userMsg st7 hbot htitle
  obtain ⟨ha1, -, -, -⟩ := afterResponse_spec env oracles chatId userMsg st7
  obtain ⟨hm, hclog, hslog, hlrounds, -, -, hfull⟩ := ha1 stF hafter
  refine ⟨stF, ?_, ?_, ?_, ?_, ?_⟩
  · simp only [tryBody, hresp, hrp]
    exact hafter
  · rw [hlrounds, hrounds]
  · rw [hclog, hlen]
    dsimp only
    simp [List.length_append]
  · rw [hslog, hslen]
  · rw [hm, hdb, hfull]

/-- C2: over all oracles, the number of additional model-to-tool round
trips after the first tool round never exceeds `MAX_ITERATIONS` (= 3);
and when the model requests tools on every structured response — the
runaway scenario — exactly `MAX_ITERATIONS` additional rounds are
dispatched (not `MAX_ITERATIONS + 1`: after the bound the model is simply
never offered tools again, so no further request is solicited or
dispatched), the model is invoked with tools exactly `1 + MAX_ITERATIONS`
times, one tool-free streaming call produces the final answer, and the
turn still ends with a persisted bot answer. -/
theorem C2_iteration_bound (env : Env) (oracles : Oracles) (retr : Bool)
    (chatId0 : Option String) (db0 : Db) (userMsg : String) :
    (stream_answer_with_tools env oracles retr chatId0 db0 userMsg).loopDispatchRounds ≤
      MAX_ITERATIONS ∧
    ((∀ msgs, ∃ resp,
        oracles.create msgs AVAILABLE_TOOLS "auto" = .ok resp ∧ resp.tool_calls ≠ []) →
     (∀ msgs, ∃ toks, oracles.createStream msgs = .ok toks) →
     oracles.persistBotFail = Option.none →
     oracles.persistTitleFail = Option.none →
     (stream_answer_with_tools env oracles retr chatId0 db0 userMsg).loopDispatchRounds =
        MAX_ITERATIONS ∧
     (stream_answer_with_tools env oracles retr chatId0 db0 userMsg).createLog.length =
        1 + MAX_ITERATIONS ∧
     (stream_answer_with_tools env oracles retr chatId0 db0 userMsg).streamLog.length = 1 ∧
     (stream_answer_with_tools env oracles retr chatId0 db0 userMsg).failed =
        Option.none ∧
     ∃ botTxt,
       (stream_answer_with_tools env oracles retr chatId0 db0 userMsg).db.messages.getLast? =
         some ((stream_answer_with_tools env oracles retr chatId0 db0 userMsg).chatId,
           "bot", botTxt)) := by
  obtain ⟨hdb0, hclog0, hrounds0, hslog0, -⟩ := initialSt_fields oracles chatId0 db0 userMsg
  constructor
  · obtain ⟨-, -, hbound, -⟩ := tryBody_spec env oracles retr
      (chatId0.getD oracles.newChatId) userMsg (initialSt oracles chatId0 db0 userMsg)
    rw [hrounds0] at hbound
    simp only [stream_answer_with_tools]
    cases htb : tryBody env oracles retr (chatId0.getD oracles.newChatId) userMsg
        (initialSt oracles chatId0 db0 userMsg) with
    | ok st =>
      rw [htb] at hbound
      simpa [outSt] using hbound
    | error es =>
      rw [htb] at hbound
      simpa [outSt] using hbound
  · intro hgreedy hstream hbot htitle
    obtain ⟨stF, htb, hrounds, hlen, hslen, hdb⟩ := tryBody_greedy env oracles retr
      (chatId0.getD oracles.newChatId) userMsg (initialSt oracles chatId0 db0 userMsg)
      hgreedy hstream hbot htitle
    simp only [stream_answer_with_tools, htb]
    refine ⟨?_, ?_, ?_, ?_, stF.full_response, ?_⟩
    · rw [hrounds, hrounds0]
      omega
    · rw [hlen, hclog0]
      simp
    · rw [hslen, hslog0]
      simp
    · trivial
    · show stF.db.messages.getLast? = _
      rw [hdb, List.getLast?_concat]

/-- C2 witness: the bound-part hypotheses discharged at the concrete
greedy oracle (the model that always requests `search_web`). -/
theorem C2_iteration_bound_witness :
    (stream_answer_with_tools stubEnv greedyOracle false Option.none ⟨[], []⟩
      "compare things").loopDispatchRounds = MAX_ITERATIONS ∧
    (stream_answer_with_tools stubEnv greedyOracle false Option.none ⟨[], []⟩
      "compare things").createLog.length = 1 + MAX_ITERATIONS ∧
    (stream_answer_with_tools stubEnv greedyOracle false Option.none ⟨[], []⟩
      "compare things").streamLog.length = 1 := by
  have h := (C2_iteration_bound stubEnv greedyOracle false Option.none ⟨[], []⟩
      "compare things").2
    (fun _ => ⟨⟨Option.none, [⟨"t1", "search_web", [("query", .str "q")]⟩]⟩, rfl,
      by simp⟩)
    (fun _ => ⟨["final ", "answer"], rfl⟩) rfl rfl
  exact ⟨h.1, h.2.1, h.2.2.1⟩

/-! ## C3 — what the model is invoked with -/

/-- A constant-valued map is a replicate. -/
theorem map_eq_replicate {α β : Type} (f : α → β) (a : β) :
    ∀ l : List α, (∀ x ∈ l, f x = a) → l.map f = List.replicate l.length a := by
  intro l
  induction l with
  | nil => intro _; rfl
  | cons hd tl ih =>
    intro h
    simp only [List.map_cons, List.length_cons, List.replicate_succ]
    rw [h hd (List.mem_cons_self _ _), ih (fun x hx => h x (List.mem_cons_of_mem _ hx))]

/-- C3, counterexample: the claim says the model is invoked with the
persisted prior messages plus the new user message.  On a conversation
whose store already holds a two-message history, the (only) model
invocation of the next turn receives exactly the fresh two-message list
`[system prompt, new user message]` — the persisted history
(`"earlier question"`, `"earlier answer"`) is not included
(chat_handler.py:33-36 builds `messages` from scratch). -/
theorem C3_counterexample :
    (stream_answer_with_tools stubEnv directOracle false (some "c9") histDb
      "follow up").createLog =
      [([⟨"system", some SYSTEM_PROMPT, [], Option.none⟩,
         ⟨"user", some "follow up", [], Option.none⟩], AVAILABLE_TOOLS, "auto")] ∧
    histDb.messages = [("c9", "user", "earlier question"), ("c9", "bot", "earlier answer")] :=
  ⟨rfl, rfl⟩

/-- C3 (amended): on every turn, the first model invocation receives only
the system prompt and the new user message (no persisted history), and
every model invocation of the turn carries the full `AVAILABLE_TOOLS`
list with tool-choice `"auto"`. -/
theorem C3_model_invocation (env : Env) (oracles : Oracles) (retr : Bool)
    (chatId0 : Option String) (db0 : Db) (userMsg : String) :
    (stream_answer_with_tools env oracles retr chatId0 db0 userMsg).createLog.head? =
      some ([⟨"system", some SYSTEM_PROMPT, [], Option.none⟩,
             ⟨"user", some userMsg, [], Option.none⟩], AVAILABLE_TOOLS, "auto") ∧
    (stream_answer_with_tools env oracles retr chatId0 db0 userMsg).createLog.map
        (fun x => (x.2.1, x.2.2)) =
      List.replicate
        (stream_answer_with_tools env oracles retr chatId0 db0 userMsg).createLog.length
        (AVAILABLE_TOOLS, "auto") := by
  obtain ⟨-, hclog0, -, -, hmsgs⟩ := initialSt_fields oracles chatId0 db0 userMsg
  obtain ⟨-, -, -, extra, hext, hprop⟩ := tryBody_spec env oracles retr
    (chatId0.getD oracles.newChatId) userMsg (initialSt oracles chatId0 db0 userMsg)
  have huniform : ∀ log : List (List Msg × List ToolSpec × String),
      log = ((initialSt oracles chatId0 db0 userMsg).messages, AVAILABLE_TOOLS, "auto")
        :: extra →
      log.head? = some ([⟨"system", some SYSTEM_PROMPT, [], Option.none⟩,
          ⟨"user", some userMsg, [], Option.none⟩], AVAILABLE_TOOLS, "auto") ∧
      log.map (fun x => (x.2.1, x.2.2)) =
        List.replicate log.length (AVAILABLE_TOOLS, "auto") := by
    intro log hlog
    subst hlog
    constructor
    · rw [hmsgs]
      rfl
    · refine map_eq_replicate _ _ _ ?_
      intro x hx
      rcases List.mem_cons.mp hx with h | h
      · rw [h]
      · obtain ⟨h1, h2⟩ := hprop x h
        rw [Prod.mk.injEq]
        exact ⟨h1, h2⟩
  simp only [stream_answer_with_tools]
  cases htb : tryBody env oracles retr (chatId0.getD oracles.newChatId) userMsg
      (initialSt oracles chatId0 db0 userMsg) with
  | ok st =>
    rw [htb] at hext
    simp only [outSt] at hext
    rw [hclog0] at hext
    exact huniform st.createLog (by rw [hext]; rfl)
  | error es =>
    rw [htb] at hext
    simp only [outSt] at hext
    rw [hclog0] at hext
    exact huniform es.2.createLog (by rw [hext]; rfl)

/-- C3 witness: the amended theorem applied at a concrete turn (the
direct-answer oracle on a store with prior history). -/
theorem C3_model_invocation_witness :
    (stream_answer_with_tools stubEnv directOracle false (some "c9") histDb
      "follow up").createLog.head? =
      some ([⟨"system", some SYSTEM_PROMPT, [], Option.none⟩,
             ⟨"user", some "follow up", [], Option.none⟩], AVAILABLE_TOOLS, "auto") :=
  (C3_model_invocation stubEnv directOracle false (some "c9") histDb "follow up").1

/-! ## C6 — the conversation title -/

/-- Turn 1 of a fresh conversation. -/
def c6turn1 : RunResult :=
  stream_answer_with_tools stubEnv directOracle false Option.none ⟨[], []⟩
    "What is LSTM?"

/-- Turn 2 of the same conversation, on the store turn 1 left behind. -/
def c6turn2 : RunResult :=
  stream_answer_with_tools stubEnv directOracle false (some c6turn1.chatId) c6turn1.db
    "Tell me more about gates now"

/-- C6: the claim (and the comment at chat_handler.py:163, "Update chat
title on first query") says the title is derived and persisted only on
the first turn.  The code at chat_handler.py:164-165 runs unconditionally
on every turn: after turn 1 the title is the first words of the first
message, but turn 2 overwrites it with the first words of the second
message. -/
theorem C6_title_overwritten_every_turn :
    c6turn1.db.chats = [("c1", "What is LSTM")] ∧
    c6turn2.db.chats = [("c1", "Tell me more about")] :=
  ⟨rfl, rfl⟩

end RAG
